/-
Verification of the Qinglong panel chat-plugin (`main.py`) against its
specification.

The development shallowly embeds the two components of the program:

* `QinglongAPI` — the HTTP client wrapper.  Network effects are made
  explicit: every method takes the current time, the outcome of the
  credential-exchange request (`ExchangeResult`) and the outcome of its own
  panel request (`Response`) as parameters, and returns its Python return
  value together with the new client state and the number of HTTP requests
  it issued (exchange requests and own panel requests, counted separately).

* `QinglongPlugin.ql_command` — the command router.  It is embedded as a
  pure function from the whitespace-tokenized command (`parts`) and a
  `Panel` oracle (the composite outcomes of the API methods the handler
  may call) to the list of replies yielded and the trace of API-method
  invocations performed (`Call`).

All numbers are `Int`/`Nat`; Python slices with possibly-negative bounds
are modelled by `pySlice`.
-/
import Mathlib

set_option linter.unusedVariables false
set_option maxRecDepth 8192

/-- Environment variable record as served by the panel
(spec §3: `{id, name, value, remarks, status}`, status 0 = enabled).
The embedding models every field as present; the Python `dict.get`
defaults in the source apply only to an absent key. -/
structure EnvVar where
  id : Int
  name : String
  value : String
  remarks : String
  status : Int
deriving DecidableEq, Repr

/-- Cron job record as served by the panel (spec §3). -/
structure CronJob where
  id : Int
  name : String
  command : String
  schedule : String
  status : Int
deriving DecidableEq, Repr

/-- Outcome of one panel HTTP request, as seen by the client after
`response.json()`: a `code == 200` envelope carrying `data`, a
`code != 200` envelope carrying `message`, or an exception
(timeout, connection failure, malformed body — all reach the
`except Exception` arm of the source). -/
inductive Response (α : Type) where
  | ok (data : α)
  | appFail (msg : String)
  | exc
deriving DecidableEq, Repr

/-- Outcome of the credential-exchange request (`GET /open/auth/token`). -/
inductive ExchangeResult where
  | ok (tok : String)
  | appFail (msg : String)
  | exc
deriving DecidableEq, Repr

namespace QinglongAPI

/-- Mutable state of `QinglongAPI`: `self.token` (initially `None`) and
`self.token_expire` (initially `0`).  Time is modelled in seconds as `Int`. -/
structure APIState where
  token : Option String
  token_expire : Int
deriving DecidableEq, Repr

/-- Python truthiness of `self.token`: `None` and `""` are falsy. -/
def tokenTruthy : Option String → Bool
  | none => false
  | some s => s != ""

/-- `get_token` (main.py lines 36-62).  Returns the boolean result, the new
state, and the number of exchange requests issued (0 or 1).
`if self.token and time.time() < self.token_expire: return True`;
otherwise one exchange request: on `code == 200` the token is cached and
`token_expire = now + 6*24*3600`; on a non-200 envelope or an exception
the method returns `False` with the state untouched. -/
def get_token (st : APIState) (now : Int) (ex : ExchangeResult) :
    Bool × APIState × Nat :=
  if tokenTruthy st.token = true ∧ now < st.token_expire then
    (true, st, 0)
  else
    match ex with
    | .ok tok => (true, ⟨some tok, now + 6 * 24 * 3600⟩, 1)
    | .appFail _ => (false, st, 1)
    | .exc => (false, st, 1)

/-- Shape of the `data` field of a successful `GET /open/envs` envelope:
a JSON list, a dict wrapping a list under key `"data"`, or anything else
(main.py lines 85-88 inspect it with `isinstance`). -/
inductive EnvsPayload where
  | arr (l : List EnvVar)
  | wrapped (l : List EnvVar)
  | otherPayload
deriving DecidableEq, Repr

/-- `data`-normalisation of `get_envs` (main.py lines 85-88):
dicts yield their inner `"data"` list, lists pass through, anything
else yields `[]`. -/
def extractEnvs : EnvsPayload → List EnvVar
  | .arr l => l
  | .wrapped l => l
  | .otherPayload => []

/-- `get_envs` (main.py lines 71-95).  Result is the returned list, the new
state, the exchange-request count and the own-request count.  A failed
`get_token` short-circuits to `[]` with no own request; an own request
returning a non-200 envelope or raising returns `[]` as well. -/
def get_envs (st : APIState) (now : Int) (ex : ExchangeResult)
    (search_value : String) (resp : Response EnvsPayload) :
    List EnvVar × APIState × Nat × Nat :=
  let r := get_token st now ex
  if r.1 then
    match resp with
    | .ok payload => (extractEnvs payload, r.2.1, r.2.2, 1)
    | .appFail _ => ([], r.2.1, r.2.2, 1)
    | .exc => ([], r.2.1, r.2.2, 1)
  else ([], r.2.1, r.2.2, 0)

/-- Shape of the `data` field of a successful `GET /open/crons` envelope. -/
inductive CronsPayload where
  | arr (l : List CronJob)
  | wrapped (l : List CronJob)
  | otherPayload
deriving DecidableEq, Repr

/-- `data`-normalisation of `get_crons` (main.py lines 227-231). -/
def extractCrons : CronsPayload → List CronJob
  | .arr l => l
  | .wrapped l => l
  | .otherPayload => []

/-- `get_crons` (main.py lines 214-238), same structure as `get_envs`. -/
def get_crons (st : APIState) (now : Int) (ex : ExchangeResult)
    (search_value : String) (resp : Response CronsPayload) :
    List CronJob × APIState × Nat × Nat :=
  let r := get_token st now ex
  if r.1 then
    match resp with
    | .ok payload => (extractCrons payload, r.2.1, r.2.2, 1)
    | .appFail _ => ([], r.2.1, r.2.2, 1)
    | .exc => ([], r.2.1, r.2.2, 1)
  else ([], r.2.1, r.2.2, 0)

/-- Common body of every boolean API method (`add_env`, `update_env`,
`delete_env`, `enable_env`, `disable_env`, `run_cron`, `stop_cron`,
`enable_cron`, `disable_cron`, `pin_cron`, `unpin_cron`, `delete_cron`):
token check, then one request, success iff the envelope code is 200,
`False` on a non-200 envelope or an exception. -/
def boolOp (st : APIState) (now : Int) (ex : ExchangeResult)
    (resp : Response Unit) : Bool × APIState × Nat × Nat :=
  let r := get_token st now ex
  if r.1 then
    match resp with
    | .ok _ => (true, r.2.1, r.2.2, 1)
    | .appFail _ => (false, r.2.1, r.2.2, 1)
    | .exc => (false, r.2.1, r.2.2, 1)
  else (false, r.2.1, r.2.2, 0)

/-- `add_env` (main.py lines 97-119); body `[{name, value, remarks}]`. -/
def add_env (st : APIState) (now : Int) (ex : ExchangeResult)
    (name value remarks : String) (resp : Response Unit) :
    Bool × APIState × Nat × Nat :=
  boolOp st now ex resp

/-- `update_env` (main.py lines 121-143); body `{id, name, value, remarks}`. -/
def update_env (st : APIState) (now : Int) (ex : ExchangeResult)
    (env_id : Int) (name value remarks : String) (resp : Response Unit) :
    Bool × APIState × Nat × Nat :=
  boolOp st now ex resp

/-- `delete_env` (main.py lines 145-166); body `[env_id]`. -/
def delete_env (st : APIState) (now : Int) (ex : ExchangeResult)
    (env_id : Int) (resp : Response Unit) : Bool × APIState × Nat × Nat :=
  boolOp st now ex resp

/-- `enable_env` (main.py lines 168-189); body is the id list. -/
def enable_env (st : APIState) (now : Int) (ex : ExchangeResult)
    (env_ids : List Int) (resp : Response Unit) : Bool × APIState × Nat × Nat :=
  boolOp st now ex resp

/-- `disable_env` (main.py lines 191-212). -/
def disable_env (st : APIState) (now : Int) (ex : ExchangeResult)
    (env_ids : List Int) (resp : Response Unit) : Bool × APIState × Nat × Nat :=
  boolOp st now ex resp

/-- `run_cron` (main.py lines 240-261). -/
def run_cron (st : APIState) (now : Int) (ex : ExchangeResult)
    (cron_ids : List Int) (resp : Response Unit) : Bool × APIState × Nat × Nat :=
  boolOp st now ex resp

/-- `stop_cron` (main.py lines 285-306). -/
def stop_cron (st : APIState) (now : Int) (ex : ExchangeResult)
    (cron_ids : List Int) (resp : Response Unit) : Bool × APIState × Nat × Nat :=
  boolOp st now ex resp

/-- `enable_cron` (main.py lines 308-329). -/
def enable_cron (st : APIState) (now : Int) (ex : ExchangeResult)
    (cron_ids : List Int) (resp : Response Unit) : Bool × APIState × Nat × Nat :=
  boolOp st now ex resp

/-- `disable_cron` (main.py lines 331-352). -/
def disable_cron (st : APIState) (now : Int) (ex : ExchangeResult)
    (cron_ids : List Int) (resp : Response Unit) : Bool × APIState × Nat × Nat :=
  boolOp st now ex resp

/-- `pin_cron` (main.py lines 354-375). -/
def pin_cron (st : APIState) (now : Int) (ex : ExchangeResult)
    (cron_ids : List Int) (resp : Response Unit) : Bool × APIState × Nat × Nat :=
  boolOp st now ex resp

/-- `unpin_cron` (main.py lines 377-398). -/
def unpin_cron (st : APIState) (now : Int) (ex : ExchangeResult)
    (cron_ids : List Int) (resp : Response Unit) : Bool × APIState × Nat × Nat :=
  boolOp st now ex resp

/-- `delete_cron` (main.py lines 400-421); on a non-200 envelope the
`message` is passed to `logger.error` only — the method returns a bare
`False`, so the message never reaches the caller. -/
def delete_cron (st : APIState) (now : Int) (ex : ExchangeResult)
    (cron_ids : List Int) (resp : Response Unit) : Bool × APIState × Nat × Nat :=
  boolOp st now ex resp

/-- `get_cron_log` (main.py lines 263-283): `data` string on a 200
envelope, `None` on a failed token, a non-200 envelope, or an exception. -/
def get_cron_log (st : APIState) (now : Int) (ex : ExchangeResult)
    (cron_id : Int) (resp : Response String) :
    Option String × APIState × Nat × Nat :=
  let r := get_token st now ex
  if r.1 then
    match resp with
    | .ok s => (some s, r.2.1, r.2.2, 1)
    | .appFail _ => (none, r.2.1, r.2.2, 1)
    | .exc => (none, r.2.1, r.2.2, 1)
  else (none, r.2.1, r.2.2, 0)

/-- System-info object (spec §3): the three fields the router reads;
`none` in a field models an absent key. -/
structure SysInfo where
  version : Option String
  branch : Option String
  isInitialized : Option Bool
deriving DecidableEq, Repr

/-- `get_system_info` (main.py lines 423-443). -/
def get_system_info (st : APIState) (now : Int) (ex : ExchangeResult)
    (resp : Response SysInfo) : Option SysInfo × APIState × Nat × Nat :=
  let r := get_token st now ex
  if r.1 then
    match resp with
    | .ok s => (some s, r.2.1, r.2.2, 1)
    | .appFail _ => (none, r.2.1, r.2.2, 1)
    | .exc => (none, r.2.1, r.2.2, 1)
  else (none, r.2.1, r.2.2, 0)

end QinglongAPI

namespace QinglongPlugin

open QinglongAPI (SysInfo)

/-- One invocation of a `QinglongAPI` method by the command handler.
Read-only calls are `getEnvs`, `getCrons`, `getCronLog`, `getSystemInfo`;
every other constructor is a mutating request. -/
inductive Call where
  | getEnvs (search : String)
  | addEnv (name value remarks : String)
  | updateEnv (id : Int) (name value remarks : String)
  | deleteEnv (id : Int)
  | enableEnv (ids : List Int)
  | disableEnv (ids : List Int)
  | getCrons (search : String)
  | runCron (ids : List Int)
  | stopCron (ids : List Int)
  | enableCron (ids : List Int)
  | disableCron (ids : List Int)
  | pinCron (ids : List Int)
  | unpinCron (ids : List Int)
  | deleteCron (ids : List Int)
  | getCronLog (id : Int)
  | getSystemInfo
deriving DecidableEq, Repr

/-- Composite outcomes of the API methods as the router sees them, one
field per method the handler may call.  `envs` is the list returned by
`get_envs(search)` (`[]` covers both an empty listing and any failure,
as the method returns `[]` in all failure cases).  `Response.exc` in a
mutating-method field also covers a failed `get_token`, since both make
the method return `False`. -/
structure Panel where
  envs : String → List EnvVar
  addResp : Response Unit
  updateResp : Response Unit
  deleteResp : Response Unit
  enableResp : Response Unit
  disableResp : Response Unit
  crons : List CronJob
  runResp : Response Unit
  stopResp : Response Unit
  cronEnableResp : Response Unit
  cronDisableResp : Response Unit
  pinResp : Response Unit
  unpinResp : Response Unit
  cronDeleteResp : Response Unit
  log : Int → Option String
  systemInfo : Option SysInfo

/-- Boolean outcome of a mutating API method: `True` exactly on a
`code == 200` envelope. -/
def respOk : Response Unit → Bool
  | .ok _ => true
  | .appFail _ => false
  | .exc => false

/-- Python `" ".join(l)`. -/
def sjoin (l : List String) : String := String.intercalate " " l

/-- Effective bound of a Python slice index `i` on a sequence of length
`n` (step 1): negative indices count from the end and clamp at `0`,
non-negative indices clamp at `n`. -/
def pyIndex (n : Nat) (i : Int) : Nat :=
  if i < 0 then ((n : Int) + i).toNat else min i.toNat n

/-- Python `l[a:b]` (step 1) with possibly-negative bounds. -/
def pySlice {α : Type} (l : List α) (a b : Int) : List α :=
  (l.take (pyIndex l.length b)).drop (pyIndex l.length a)

/-- Python `s[-n:]` for `n ≤ len(s)`: the last `n` characters. -/
def lastChars (n : Nat) (s : String) : String :=
  ⟨s.data.drop (s.length - n)⟩

/-- Decimal-digit accumulator for `toIntOpt`: `None` as soon as a
non-digit character is met. -/
def parseDigitsAux : List Char → Nat → Option Nat
  | [], acc => some acc
  | c :: cs, acc =>
    if c.isDigit then parseDigitsAux cs (acc * 10 + (c.toNat - 48)) else none

/-- Python `int(tok)` for the whitespace-free tokens produced by
`split()`, `None` on `ValueError`: an optional `-` sign followed by at
least one decimal digit. -/
def toIntOpt (s : String) : Option Int :=
  match s.data with
  | [] => none
  | '-' :: c :: cs =>
    if c.isDigit then (parseDigitsAux (c :: cs) 0).map (fun n => -(n : Int)) else none
  | c :: cs =>
    if c.isDigit then (parseDigitsAux (c :: cs) 0).map (fun n => (n : Int)) else none

/-- Python `str.lower()` on the ASCII sub-command tokens the router
compares (character-wise lowering, kept kernel-reducible). -/
def strToLower (s : String) : String := ⟨s.data.map Char.toLower⟩

/-- Python `s.startswith(pre)` (kernel-reducible). -/
def strStartsWith (s pre : String) : Bool := s.take pre.length == pre

/-- One rendered entry of the `envs` listing (main.py lines 546-554):
status glyph from `status == 0`, name, id, value truncated to 50
characters with an ellipsis marker, remarks line only when non-empty. -/
def renderEnv (env : EnvVar) : String :=
  let status := if env.status = 0 then "🟢" else "🔴"
  status ++ " " ++ env.name ++ "\n"
    ++ "  ID: " ++ toString env.id ++ "\n"
    ++ "  值: " ++ env.value.take 50
    ++ (if env.value.length > 50 then "..." else "") ++ "\n"
    ++ (if env.remarks != "" then "  备注: " ++ env.remarks ++ "\n" else "")
    ++ "\n"

/-- One rendered entry of the `ls` listing (main.py lines 720-726). -/
def renderCron (cron : CronJob) : String :=
  let status := if cron.status = 0 then "🟢" else "🔴"
  status ++ " " ++ cron.name ++ "\n"
    ++ "  ID: " ++ toString cron.id ++ "\n"
    ++ "  命令: " ++ cron.command.take 50
    ++ (if cron.command.length > 50 then "..." else "") ++ "\n"
    ++ "  定时: " ++ cron.schedule ++ "\n\n"

/-- Body of the `envs`/`list` branch after argument parsing
(main.py lines 525-561): fetch the (optionally filtered) list, slice
`envs[(page-1)*10 : page*10]`, report an out-of-range page as an error
naming `ceil(total/10)`, otherwise render the page and append a
next-page hint while later pages remain. -/
def envsCommand (panel : Panel) (search_value : String) (page : Int) :
    List String × List Call :=
  let page_size : Int := 10
  let envs := panel.envs search_value
  if envs.isEmpty then
    if search_value != "" then
      (["❌ 未找到包含 '" ++ search_value ++ "' 的环境变量"], [.getEnvs search_value])
    else
      (["📭 暂无环境变量"], [.getEnvs search_value])
  else
    let total := envs.length
    let start := (page - 1) * page_size
    let page_envs := pySlice envs start (start + page_size)
    if page_envs.isEmpty then
      (["❌ 页码超出范围 (共 " ++ toString ((total + 10 - 1) / 10) ++ " 页)"],
       [.getEnvs search_value])
    else
      let search_info := if search_value != "" then " (搜索: " ++ search_value ++ ")" else ""
      let header := "📋 环境变量列表" ++ search_info ++ " (第 " ++ toString page
        ++ " 页，共 " ++ toString total ++ " 个):\n\n"
      let body := String.join (page_envs.map renderEnv)
      let total_pages := (total + 10 - 1) / 10
      let hint :=
        if page < (total_pages : Int) then
          if search_value != "" then
            "💡 使用 /ql envs " ++ search_value ++ " " ++ toString (page + 1) ++ " 查看下一页"
          else
            "💡 使用 /ql envs " ++ toString (page + 1) ++ " 查看下一页"
        else ""
      ([header ++ body ++ hint], [.getEnvs search_value])

/-- Body of the `ls` branch after page parsing (main.py lines 704-732);
jobs are fetched without a filter. -/
def lsCommand (panel : Panel) (page : Int) : List String × List Call :=
  let page_size : Int := 10
  let crons := panel.crons
  if crons.isEmpty then
    (["📭 暂无定时任务"], [.getCrons ""])
  else
    let total := crons.length
    let start := (page - 1) * page_size
    let page_crons := pySlice crons start (start + page_size)
    if page_crons.isEmpty then
      (["❌ 页码超出范围 (共 " ++ toString ((total + 10 - 1) / 10) ++ " 页)"],
       [.getCrons ""])
    else
      let header := "📋 定时任务列表 (第 " ++ toString page ++ " 页，共 "
        ++ toString total ++ " 个):\n\n"
      let body := String.join (page_crons.map renderCron)
      let total_pages := (total + 10 - 1) / 10
      let hint :=
        if page < (total_pages : Int) then
          "💡 使用 /ql ls " ++ toString (page + 1) ++ " 查看下一页"
        else ""
      ([header ++ body ++ hint], [.getCrons ""])

/-- `update` branch (main.py lines 579-633) after the length check,
given `name_or_id = parts[2]` and `value = " ".join(parts[3:])`.
The `id:` path looks the id up among ALL variables and passes the
target's own name and remarks through; the name path requires a unique
match and passes the FILTER TOKEN as the name together with the match's
remarks; 2+ matches list every match's id and remarks and perform no
update call. -/
def updateCommand (panel : Panel) (name_or_id : String) (value : String) :
    List String × List Call :=
  if strStartsWith name_or_id "id:" then
    match toIntOpt (name_or_id.drop 3) with
    | none => (["❌ 无效的ID格式: " ++ name_or_id], [])
    | some env_id =>
      let all_envs := panel.envs ""
      match all_envs.find? (fun e => e.id = env_id) with
      | none =>
        (["❌ 未找到ID为 " ++ toString env_id ++ " 的环境变量"], [.getEnvs ""])
      | some target_env =>
        let original_name := target_env.name
        let final_remarks := target_env.remarks
        if respOk panel.updateResp then
          (["✅ 更新环境变量成功\nID: " ++ toString env_id ++ "\n名称: " ++ original_name],
           [.getEnvs "", .updateEnv env_id original_name value final_remarks])
        else
          (["❌ 更新环境变量失败: ID " ++ toString env_id],
           [.getEnvs "", .updateEnv env_id original_name value final_remarks])
  else
    let name := name_or_id
    match panel.envs name with
    | [] => (["❌ 未找到环境变量: " ++ name], [.getEnvs name])
    | [env] =>
      if respOk panel.updateResp then
        (["✅ 更新环境变量成功: " ++ name],
         [.getEnvs name, .updateEnv env.id name value env.remarks])
      else
        (["❌ 更新环境变量失败: " ++ name],
         [.getEnvs name, .updateEnv env.id name value env.remarks])
    | e0 :: e1 :: rest =>
      let envs := e0 :: e1 :: rest
      let header := "⚠️ 找到 " ++ toString envs.length ++ " 个名为 '" ++ name ++ "' 的变量:\n\n"
      let body := String.join
        (envs.map (fun e => "ID: " ++ toString e.id ++ " - " ++ e.remarks ++ "\n"))
      let hint := "\n💡 使用 /ql update id:" ++ toString e0.id ++ " <新值> 精确更新"
      ([header ++ body ++ hint], [.getEnvs name])

/-- The fixed help text yielded when fewer than two tokens are present
(main.py lines 482-503). -/
def helpText : String :=
  "📦 青龙面板管理插件 v1.0\n\n📋 环境变量:\n/ql envs [关键词] [页码] - 查看环境变量\n/ql add <名称> <值> [备注] - 添加\n/ql update <名称> <值> [备注] - 更新（按名称）\n/ql update id:<ID> <值> [备注] - 更新（按ID）\n/ql delete <名称> - 删除\n/ql enable/disable <名称> - 启用/禁用\n\n⏰ 定时任务:\n/ql ls [页码] - 查看任务列表\n/ql run <任务ID> - 执行任务\n/ql stop <任务ID> - 停止任务\n/ql log <任务ID> - 查看日志\n/ql cron enable/disable <任务ID> - 启用/禁用\n/ql cron pin/unpin <任务ID> - 置顶/取消\n/ql cron delete <任务ID> - 删除任务\n\n📊 系统信息:\n/ql info - 查看系统信息"

/-- The `/ql` command handler `ql_command` (main.py lines 472-864) on the
already-tokenized message.  Returns the list of replies yielded and the
trace of API-method invocations, in order. -/
def qlDispatch (panel : Panel) : List String → List String × List Call
  | trigger :: cmdTok :: rest =>
    let command := strToLower cmdTok
    if command = "list" ∨ command = "envs" then
      -- lines 509-524: optional numeric page, else filter plus optional page
      let args : String × Int :=
        match rest with
        | [] => ("", 1)
        | a :: rest2 =>
          match toIntOpt a with
          | some p => ("", p)
          | none =>
            match rest2 with
            | [] => (a, 1)
            | b :: _ =>
              match toIntOpt b with
              | some p => (a, p)
              | none => (a, 1)
      envsCommand panel args.1 args.2
    else if command = "add" then
      match rest with
      | name :: value :: rem =>
        let remarks := sjoin rem
        if respOk panel.addResp then
          (["✅ 添加环境变量成功: " ++ name], [.addEnv name value remarks])
        else
          (["❌ 添加环境变量失败: " ++ name], [.addEnv name value remarks])
      | _ => (["使用方法: /ql add <变量名> <变量值> [备注]"], [])
    else if command = "update" then
      match rest with
      | name_or_id :: v :: vs => updateCommand panel name_or_id (sjoin (v :: vs))
      | _ =>
        (["使用方法:\n/ql update <变量名> <值>\n/ql update id:<ID> <值>\n\n💡 值会自动合并所有空格后的内容"], [])
    else if command = "delete" then
      match rest with
      | name :: _ =>
        match panel.envs name with
        | [] => (["❌ 未找到环境变量: " ++ name], [.getEnvs name])
        | env :: _ =>
          if respOk panel.deleteResp then
            (["✅ 删除环境变量成功: " ++ name], [.getEnvs name, .deleteEnv env.id])
          else
            (["❌ 删除环境变量失败: " ++ name], [.getEnvs name, .deleteEnv env.id])
      | [] => (["使用方法: /ql delete <变量名>"], [])
    else if command = "enable" then
      match rest with
      | name :: _ =>
        match panel.envs name with
        | [] => (["❌ 未找到环境变量: " ++ name], [.getEnvs name])
        | env0 :: envs' =>
          let env_ids := (env0 :: envs').map (fun e => e.id)
          if respOk panel.enableResp then
            (["✅ 启用环境变量成功: " ++ name], [.getEnvs name, .enableEnv env_ids])
          else
            (["❌ 启用环境变量失败: " ++ name], [.getEnvs name, .enableEnv env_ids])
      | [] => (["使用方法: /ql enable <变量名>"], [])
    else if command = "disable" then
      match rest with
      | name :: _ =>
        match panel.envs name with
        | [] => (["❌ 未找到环境变量: " ++ name], [.getEnvs name])
        | env0 :: envs' =>
          let env_ids := (env0 :: envs').map (fun e => e.id)
          if respOk panel.disableResp then
            (["✅ 禁用环境变量成功: " ++ name], [.getEnvs name, .disableEnv env_ids])
          else
            (["❌ 禁用环境变量失败: " ++ name], [.getEnvs name, .disableEnv env_ids])
      | [] => (["使用方法: /ql disable <变量名>"], [])
    else if command = "ls" then
      match rest with
      | [] => lsCommand panel 1
      | a :: _ =>
        match toIntOpt a with
        | some page => lsCommand panel page
        | none => (["❌ 页码必须是数字"], [])
    else if command = "run" then
      match rest with
      | a :: _ =>
        match toIntOpt a with
        | some cron_id =>
          if respOk panel.runResp then
            (["✅ 已启动任务: " ++ toString cron_id ++ "\n💡 使用 /ql log "
                ++ toString cron_id ++ " 查看日志"], [.runCron [cron_id]])
          else
            (["❌ 执行任务失败: " ++ toString cron_id], [.runCron [cron_id]])
        | none => (["❌ 任务ID必须是数字"], [])
      | [] => (["使用方法: /ql run <任务ID>"], [])
    else if command = "log" then
      match rest with
      | a :: _ =>
        match toIntOpt a with
        | some cron_id =>
          match panel.log cron_id with
          | none => (["❌ 获取任务日志失败: " ++ toString cron_id], [.getCronLog cron_id])
          | some log_content =>
            if log_content = "" then
              (["📝 任务 " ++ toString cron_id ++ " 暂无日志"], [.getCronLog cron_id])
            else
              let body :=
                if log_content.length > 1000 then "...\n" ++ lastChars 1000 log_content
                else log_content
              (["📝 任务 " ++ toString cron_id ++ " 日志:\n\n" ++ body], [.getCronLog cron_id])
        | none => (["❌ 任务ID必须是数字"], [])
      | [] => (["使用方法: /ql log <任务ID>"], [])
    else if command = "stop" then
      match rest with
      | a :: _ =>
        match toIntOpt a with
        | some cron_id =>
          if respOk panel.stopResp then
            (["✅ 已停止任务: " ++ toString cron_id], [.stopCron [cron_id]])
          else
            (["❌ 停止任务失败: " ++ toString cron_id], [.stopCron [cron_id]])
        | none => (["❌ 任务ID必须是数字"], [])
      | [] => (["使用方法: /ql stop <任务ID>"], [])
    else if command = "cron" then
      match rest with
      | a :: b :: _ =>
        let action := strToLower a
        match toIntOpt b with
        | none => (["❌ 任务ID必须是数字"], [])
        | some cron_id =>
          if action = "enable" then
            if respOk panel.cronEnableResp then
              (["✅ 已启用任务: " ++ toString cron_id], [.enableCron [cron_id]])
            else
              (["❌ 启用任务失败: " ++ toString cron_id], [.enableCron [cron_id]])
          else if action = "disable" then
            if respOk panel.cronDisableResp then
              (["✅ 已禁用任务: " ++ toString cron_id], [.disableCron [cron_id]])
            else
              (["❌ 禁用任务失败: " ++ toString cron_id], [.disableCron [cron_id]])
          else if action = "pin" then
            if respOk panel.pinResp then
              (["📌 已置顶任务: " ++ toString cron_id], [.pinCron [cron_id]])
            else
              (["❌ 置顶任务失败: " ++ toString cron_id], [.pinCron [cron_id]])
          else if action = "unpin" then
            if respOk panel.unpinResp then
              (["📌 已取消置顶: " ++ toString cron_id], [.unpinCron [cron_id]])
            else
              (["❌ 取消置顶失败: " ++ toString cron_id], [.unpinCron [cron_id]])
          else if action = "delete" then
            if respOk panel.cronDeleteResp then
              (["✅ 已删除任务: " ++ toString cron_id], [.deleteCron [cron_id]])
            else
              (["❌ 删除任务失败: " ++ toString cron_id], [.deleteCron [cron_id]])
          else
            (["❌ 未知操作: " ++ action ++ "\n支持: enable, disable, pin, unpin, delete"], [])
      | _ =>
        (["使用方法:\n/ql cron enable/disable <任务ID>\n/ql cron pin/unpin <任务ID>\n/ql cron delete <任务ID>"], [])
    else if command = "info" then
      match panel.systemInfo with
      | none => (["❌ 获取系统信息失败"], [.getSystemInfo])
      | some info =>
        let base := "📊 青龙面板系统信息:\n\n"
        let versionLine :=
          match info.version with
          | some v =>
            "🖥️ 版本: " ++ v
              ++ (match info.branch with | some b => " (" ++ b ++ ")" | none => "")
              ++ "\n"
          | none => ""
        let initLine :=
          match info.isInitialized with
          | some b =>
            "📌 状态: " ++ (if b then "✅ 已初始化" else "⚠️ 未初始化") ++ "\n"
          | none => ""
        ([base ++ versionLine ++ initLine], [.getSystemInfo])
    else
      (["❌ 未知命令: " ++ command ++ "\n使用 /ql 查看帮助"], [])
  | _ => ([helpText], [])

/-- Python `message.split()`: split on whitespace runs, dropping empties. -/
def pySplit (s : String) : List String :=
  (s.split Char.isWhitespace).filter (fun t => t != "")

/-- `ql_command` on the raw message string. -/
def ql_command (panel : Panel) (message : String) : List String × List Call :=
  qlDispatch panel (pySplit message)

end QinglongPlugin

namespace QinglongPlugin

/-- Twelve-entry variable listing used to exercise pagination. -/
def envListA : List EnvVar :=
  (List.range 12).map (fun i => ⟨(i : Int), "VAR", "value", "", 0⟩)

/-- Twelve-entry job listing used to exercise pagination. -/
def cronListA : List CronJob :=
  (List.range 12).map (fun i => ⟨(i : Int), "job", "cmd", "0 0 * * *", 0⟩)

/-- A 1500-character log body. -/
def longLog : String := ⟨List.replicate 1500 'a'⟩

/-- A 500-character log body. -/
def shortLog : String := ⟨List.replicate 500 'b'⟩

/-- Concrete panel: twelve unfiltered variables, a failing cron-delete
(`code != 200`, message `"not found"`), and logs of every relevant shape. -/
def panelA : Panel where
  envs := fun s =>
    if s = "DUP" then
      [⟨1, "DUP", "v1", "r1", 0⟩, ⟨2, "DUP", "v2", "r2", 1⟩]
    else if s = "A" then
      [⟨7, "AB", "v", "r", 0⟩]
    else if s = "NONE" then []
    else envListA
  addResp := .ok ()
  updateResp := .ok ()
  deleteResp := .ok ()
  enableResp := .ok ()
  disableResp := .ok ()
  crons := cronListA
  runResp := .ok ()
  stopResp := .ok ()
  cronEnableResp := .ok ()
  cronDisableResp := .ok ()
  pinResp := .ok ()
  unpinResp := .ok ()
  cronDeleteResp := .appFail "not found"
  log := fun i =>
    if i = 1 then none
    else if i = 2 then some ""
    else if i = 3 then some shortLog
    else some longLog
  systemInfo := none

end QinglongPlugin

/-! ## Theorems -/

namespace QinglongPlugin

lemma isEmpty_false_of_length_pos {α : Type} {l : List α} (h : 0 < l.length) :
    l.isEmpty = false := by
  cases l <;> simp_all

lemma isEmpty_true_of_length_zero {α : Type} {l : List α} (h : l.length = 0) :
    l.isEmpty = true := by
  cases l <;> simp_all

lemma pyIndex_le (n : Nat) (i : Int) : pyIndex n i ≤ n := by
  unfold pyIndex
  split <;> omega

lemma pyIndex_natCast (n k : Nat) : pyIndex n (k : Int) = min k n := by
  unfold pyIndex
  split
  · omega
  · simp

lemma pySlice_length {α : Type} (l : List α) (a b : Int) :
    (pySlice l a b).length = pyIndex l.length b - pyIndex l.length a := by
  unfold pySlice
  have hb := pyIndex_le l.length b
  simp [List.length_drop, List.length_take]
  omega

lemma toLower_envs : strToLower "envs" = "envs" := by decide


lemma pySlice_page_length {α : Type} (l : List α) (p : Nat) (hp : 1 ≤ p) :
    (pySlice l (((p : Int) - 1) * 10) (((p : Int) - 1) * 10 + 10)).length
      = min (10 * p) l.length - 10 * (p - 1) := by
  rw [pySlice_length]
  have e1 : ((p : Int) - 1) * 10 = ((10 * (p - 1) : Nat) : Int) := by
    push_cast [Nat.cast_sub hp]
    ring
  have e2 : ((p : Int) - 1) * 10 + 10 = ((10 * p : Nat) : Int) := by
    push_cast
    ring
  rw [e2, e1, pyIndex_natCast, pyIndex_natCast]
  omega

/-- C1: for the `envs` command over a fetched (optionally filtered)
variable list of length `N > 0` with page size 10, every page `p` with
`1 ≤ p ≤ ⌈N/10⌉` renders exactly `min 10 (N - 10*(p-1))` entries, every
`p > ⌈N/10⌉` yields the fixed page-out-of-range reply naming
`⌈N/10⌉ = (N + 10 - 1) / 10` with no entries rendered, and a trailing
numeric token (with or without a preceding non-numeric filter token) is
parsed as the page number. -/
theorem envs_pagination_c1 (panel : Panel) (sv : String) (p : Nat) (hp : 1 ≤ p)
    (hN : 0 < (panel.envs sv).length) :
    (p ≤ ((panel.envs sv).length + 10 - 1) / 10 →
       (pySlice (panel.envs sv) (((p : Int) - 1) * 10) (((p : Int) - 1) * 10 + 10)).length
         = min 10 ((panel.envs sv).length - 10 * (p - 1)) ∧
       envsCommand panel sv (p : Int) =
         (["📋 环境变量列表" ++ (if sv != "" then " (搜索: " ++ sv ++ ")" else "")
             ++ " (第 " ++ toString (p : Int) ++ " 页，共 "
             ++ toString (panel.envs sv).length ++ " 个):\n\n"
             ++ String.join ((pySlice (panel.envs sv) (((p : Int) - 1) * 10)
                  (((p : Int) - 1) * 10 + 10)).map renderEnv)
             ++ (if (p : Int) < ((((panel.envs sv).length + 10 - 1) / 10 : Nat) : Int) then
                   (if sv != "" then
                      "💡 使用 /ql envs " ++ sv ++ " " ++ toString ((p : Int) + 1) ++ " 查看下一页"
                    else "💡 使用 /ql envs " ++ toString ((p : Int) + 1) ++ " 查看下一页")
                 else "")],
          [.getEnvs sv])) ∧
    (((panel.envs sv).length + 10 - 1) / 10 < p →
       envsCommand panel sv (p : Int) =
         (["❌ 页码超出范围 (共 " ++ toString (((panel.envs sv).length + 10 - 1) / 10) ++ " 页)"],
          [.getEnvs sv])) ∧
    (∀ t f : String, toIntOpt t = some (p : Int) → toIntOpt f = none →
       qlDispatch panel ["ql", "envs", t] = envsCommand panel "" (p : Int) ∧
       qlDispatch panel ["ql", "envs", f, t] = envsCommand panel f (p : Int)) := by
  have hlen := pySlice_page_length (panel.envs sv) p hp
  refine ⟨fun hle => ?_, fun hgt => ?_, fun t f ht hf => ?_⟩
  · have hlt : 10 * (p - 1) < (panel.envs sv).length := by omega
    have hcount :
        (pySlice (panel.envs sv) (((p : Int) - 1) * 10) (((p : Int) - 1) * 10 + 10)).length
          = min 10 ((panel.envs sv).length - 10 * (p - 1)) := by
      rw [hlen]; omega
    refine ⟨hcount, ?_⟩
    have hpos : 0 <
        (pySlice (panel.envs sv) (((p : Int) - 1) * 10) (((p : Int) - 1) * 10 + 10)).length := by
      rw [hcount]; omega
    simp only [envsCommand]
    rw [isEmpty_false_of_length_pos hN, isEmpty_false_of_length_pos hpos]
    simp
  · have hzero :
        (pySlice (panel.envs sv) (((p : Int) - 1) * 10) (((p : Int) - 1) * 10 + 10)).length
          = 0 := by
      rw [hlen]
      omega
    simp only [envsCommand]
    rw [isEmpty_false_of_length_pos hN, isEmpty_true_of_length_zero hzero]
    simp
  · constructor
    · simp only [qlDispatch, toLower_envs, ht]
      simp
    · simp only [qlDispatch, toLower_envs, ht, hf]
      simp


/-- Witness for C1: page 2 of the twelve-entry listing renders
`min 10 (12 - 10) = 2` entries, and the token `"2"` parses as the page. -/
theorem envs_pagination_c1_witness :
    (pySlice (panelA.envs "") ((((2 : Nat) : Int) - 1) * 10)
        ((((2 : Nat) : Int) - 1) * 10 + 10)).length
      = min 10 ((panelA.envs "").length - 10 * (2 - 1)) ∧
    qlDispatch panelA ["ql", "envs", "2"] = envsCommand panelA "" ((2 : Nat) : Int) := by
  have h := envs_pagination_c1 panelA "" 2 (by decide) (by decide)
  exact ⟨(h.1 (by decide)).1, (h.2.2 "2" "x" (by decide) (by decide)).1⟩


lemma pySlice_zero_page {α : Type} (l : List α) :
    (pySlice l ((0 - 1) * 10) ((0 - 1) * 10 + 10)).length = 0 := by
  rw [pySlice_length]
  unfold pyIndex
  split <;> split <;> omega

lemma pyIndex_neg_hi (n : Nat) (p : Int) (hp : p < 0)
    (hN : (10 * (-p)).toNat < n) :
    pyIndex n ((p - 1) * 10 + 10) = n - (10 * (-p)).toNat := by
  unfold pyIndex
  split <;> omega

lemma pyIndex_neg_lo (n : Nat) (p : Int) (hp : p < 0)
    (hN : (10 * (-p)).toNat < n) :
    pyIndex n ((p - 1) * 10) = n - (10 * (-p)).toNat - 10 := by
  unfold pyIndex
  split <;> omega

lemma pySlice_neg_page {α : Type} (l : List α) (p : Int) (hp : p < 0)
    (hN : (10 * (-p)).toNat < l.length) :
    pySlice l ((p - 1) * 10) ((p - 1) * 10 + 10)
      = (l.take (l.length - (10 * (-p)).toNat)).drop
          (l.length - (10 * (-p)).toNat - 10) := by
  unfold pySlice
  rw [pyIndex_neg_hi l.length p hp hN, pyIndex_neg_lo l.length p hp hN]

/-- C10: with page number 0 both the `envs` and the `ls` slice are empty,
so the out-of-range error is returned; with a negative page number `p`
and a list longer than `10*(-p)`, the Python slice uses negative
indexing: the rendered entries are the (at most 10) elements ending
`10*(-p)` positions before the END of the list, shown under the heading
naming page `p` instead of an out-of-range error. -/
theorem negative_page_slice_c10 (panel : Panel) (p : Int) :
    (0 < (panel.envs "").length →
       envsCommand panel "" 0 =
         (["❌ 页码超出范围 (共 " ++ toString (((panel.envs "").length + 10 - 1) / 10) ++ " 页)"],
          [.getEnvs ""])) ∧
    (0 < panel.crons.length →
       lsCommand panel 0 =
         (["❌ 页码超出范围 (共 " ++ toString ((panel.crons.length + 10 - 1) / 10) ++ " 页)"],
          [.getCrons ""])) ∧
    (p < 0 → (10 * (-p)).toNat < (panel.envs "").length →
       pySlice (panel.envs "") ((p - 1) * 10) ((p - 1) * 10 + 10)
         = ((panel.envs "").take ((panel.envs "").length - (10 * (-p)).toNat)).drop
             ((panel.envs "").length - (10 * (-p)).toNat - 10) ∧
       pySlice (panel.envs "") ((p - 1) * 10) ((p - 1) * 10 + 10) ≠ [] ∧
       envsCommand panel "" p =
         (["📋 环境变量列表" ++ "" ++ " (第 " ++ toString p ++ " 页，共 "
             ++ toString (panel.envs "").length ++ " 个):\n\n"
             ++ String.join ((pySlice (panel.envs "") ((p - 1) * 10)
                  ((p - 1) * 10 + 10)).map renderEnv)
             ++ (if p < ((((panel.envs "").length + 10 - 1) / 10 : Nat) : Int) then
                   "💡 使用 /ql envs " ++ toString (p + 1) ++ " 查看下一页"
                 else "")],
          [.getEnvs ""])) ∧
    (p < 0 → (10 * (-p)).toNat < panel.crons.length →
       pySlice panel.crons ((p - 1) * 10) ((p - 1) * 10 + 10) ≠ [] ∧
       lsCommand panel p =
         (["📋 定时任务列表 (第 " ++ toString p ++ " 页，共 "
             ++ toString panel.crons.length ++ " 个):\n\n"
             ++ String.join ((pySlice panel.crons ((p - 1) * 10)
                  ((p - 1) * 10 + 10)).map renderCron)
             ++ (if p < (((panel.crons.length + 10 - 1) / 10 : Nat) : Int) then
                   "💡 使用 /ql ls " ++ toString (p + 1) ++ " 查看下一页"
                 else "")],
          [.getCrons ""])) := by
  refine ⟨fun hN => ?_, fun hN => ?_, fun hp hN => ?_, fun hp hN => ?_⟩
  · simp only [envsCommand]
    rw [isEmpty_false_of_length_pos hN,
      isEmpty_true_of_length_zero (pySlice_zero_page (panel.envs ""))]
    simp
  · simp only [lsCommand]
    rw [isEmpty_false_of_length_pos hN,
      isEmpty_true_of_length_zero (pySlice_zero_page panel.crons)]
    simp
  · have hsl := pySlice_neg_page (panel.envs "") p hp hN
    have hpos : 0 < (pySlice (panel.envs "") ((p - 1) * 10) ((p - 1) * 10 + 10)).length := by
      rw [pySlice_length, pyIndex_neg_hi _ p hp hN, pyIndex_neg_lo _ p hp hN]
      omega
    have hNpos : 0 < (panel.envs "").length := by omega
    refine ⟨hsl, by rw [← List.length_pos]; exact hpos, ?_⟩
    simp only [envsCommand]
    rw [isEmpty_false_of_length_pos hNpos, isEmpty_false_of_length_pos hpos]
    simp
  · have hpos : 0 < (pySlice panel.crons ((p - 1) * 10) ((p - 1) * 10 + 10)).length := by
      rw [pySlice_length, pyIndex_neg_hi _ p hp hN, pyIndex_neg_lo _ p hp hN]
      omega
    have hNpos : 0 < panel.crons.length := by omega
    refine ⟨by rw [← List.length_pos]; exact hpos, ?_⟩
    simp only [lsCommand]
    rw [isEmpty_false_of_length_pos hNpos, isEmpty_false_of_length_pos hpos]
    simp

/-- Witness for C10 at `p = -1` over twelve-entry listings. -/
theorem negative_page_slice_c10_witness :
    envsCommand panelA "" 0 =
      (["❌ 页码超出范围 (共 " ++ toString (((panelA.envs "").length + 10 - 1) / 10) ++ " 页)"],
       [.getEnvs ""]) ∧
    pySlice (panelA.envs "") ((-1 - 1) * 10) ((-1 - 1) * 10 + 10)
      = ((panelA.envs "").take ((panelA.envs "").length - (10 * (-(-1 : Int))).toNat)).drop
          ((panelA.envs "").length - (10 * (-(-1 : Int))).toNat - 10) ∧
    pySlice panelA.crons ((-1 - 1) * 10) ((-1 - 1) * 10 + 10) ≠ [] := by
  have h := negative_page_slice_c10 panelA (-1)
  exact ⟨h.1 (by decide), (h.2.2.1 (by decide) (by decide)).1,
    (h.2.2.2 (by decide) (by decide)).1⟩

end QinglongPlugin
namespace QinglongAPI

/-- C2: `get_token` returns `True` with no request while a (truthy) cached
token is unexpired; otherwise it issues exactly one exchange request, on
success caching the token with expiry `now + 6 days`; hence a second call
within the 6-day window issues no request (at most one exchange for two
sequential operations) and a call at or after the expiry instant issues
exactly one fresh exchange. -/
theorem token_cache_c2 (st : APIState) (now now2 : Int) (ex ex2 : ExchangeResult)
    (tok : String) :
    (tokenTruthy st.token = true ∧ now < st.token_expire →
       get_token st now ex = (true, st, 0)) ∧
    (¬(tokenTruthy st.token = true ∧ now < st.token_expire) →
       (get_token st now ex).2.2 = 1 ∧
       get_token st now (.ok tok) = (true, ⟨some tok, now + 6 * 24 * 3600⟩, 1) ∧
       (tok ≠ "" → now2 < now + 6 * 24 * 3600 →
          get_token ⟨some tok, now + 6 * 24 * 3600⟩ now2 ex2
            = (true, ⟨some tok, now + 6 * 24 * 3600⟩, 0)) ∧
       (now + 6 * 24 * 3600 ≤ now2 →
          (get_token ⟨some tok, now + 6 * 24 * 3600⟩ now2 ex2).2.2 = 1)) := by
  refine ⟨fun h => ?_, fun h => ⟨?_, ?_, fun htok h2 => ?_, fun h2 => ?_⟩⟩
  · unfold get_token
    rw [if_pos h]
  · unfold get_token
    rw [if_neg h]
    cases ex <;> rfl
  · unfold get_token
    rw [if_neg h]
  · have hc : tokenTruthy (some tok) = true ∧ now2 < now + 6 * 24 * 3600 := by
      refine ⟨?_, h2⟩
      simp [tokenTruthy]
      exact htok
    simp only [get_token]
    rw [if_pos hc]
  · have hnc : ¬(tokenTruthy (some tok) = true ∧ now2 < now + 6 * 24 * 3600) := by
      rintro ⟨-, hlt⟩
      omega
    simp only [get_token]
    rw [if_neg hnc]
    cases ex2 <;> rfl

/-- Witness for C2: a fresh exchange caches the token; a second call 100
seconds later issues no request; a call at the expiry instant issues one. -/
theorem token_cache_c2_witness :
    get_token ⟨none, 0⟩ 100 (.ok "t") = (true, ⟨some "t", 100 + 6 * 24 * 3600⟩, 1) ∧
    get_token ⟨some "t", 100 + 6 * 24 * 3600⟩ 200 .exc
      = (true, ⟨some "t", 100 + 6 * 24 * 3600⟩, 0) ∧
    (get_token ⟨some "t", 100 + 6 * 24 * 3600⟩ (100 + 6 * 24 * 3600) .exc).2.2 = 1 := by
  have h := (token_cache_c2 ⟨none, 0⟩ 100 200 (.ok "t") .exc "t").2 (by decide)
  have h' := (token_cache_c2 ⟨none, 0⟩ 100 (100 + 6 * 24 * 3600) (.ok "t") .exc "t").2
    (by decide)
  exact ⟨h.2.1, h.2.2.1 (by decide) (by decide), h'.2.2.2 (le_refl _)⟩

/-- C7: when the credential exchange fails (non-200 envelope or
exception) and no valid token is cached, `get_token` returns `False`
leaving the state (hence the token) untouched, and every token-dependent
operation short-circuits to its failure result (`False`, `[]` or `None`)
after the single failed exchange, issuing no panel request of its own. -/
theorem exchange_failure_short_circuit_c7 (st : APIState) (now : Int)
    (ex : ExchangeResult) (m : String)
    (hex : ex = .appFail m ∨ ex = .exc)
    (hcache : ¬(tokenTruthy st.token = true ∧ now < st.token_expire)) :
    get_token st now ex = (false, st, 1) ∧
    (∀ sv resp, get_envs st now ex sv resp = ([], st, 1, 0)) ∧
    (∀ sv resp, get_crons st now ex sv resp = ([], st, 1, 0)) ∧
    (∀ n v r resp, add_env st now ex n v r resp = (false, st, 1, 0)) ∧
    (∀ i n v r resp, update_env st now ex i n v r resp = (false, st, 1, 0)) ∧
    (∀ i resp, delete_env st now ex i resp = (false, st, 1, 0)) ∧
    (∀ ids resp, enable_env st now ex ids resp = (false, st, 1, 0)) ∧
    (∀ ids resp, disable_env st now ex ids resp = (false, st, 1, 0)) ∧
    (∀ ids resp, run_cron st now ex ids resp = (false, st, 1, 0)) ∧
    (∀ ids resp, stop_cron st now ex ids resp = (false, st, 1, 0)) ∧
    (∀ ids resp, enable_cron st now ex ids resp = (false, st, 1, 0)) ∧
    (∀ ids resp, disable_cron st now ex ids resp = (false, st, 1, 0)) ∧
    (∀ ids resp, pin_cron st now ex ids resp = (false, st, 1, 0)) ∧
    (∀ ids resp, unpin_cron st now ex ids resp = (false, st, 1, 0)) ∧
    (∀ ids resp, delete_cron st now ex ids resp = (false, st, 1, 0)) ∧
    (∀ i resp, get_cron_log st now ex i resp = (none, st, 1, 0)) ∧
    (∀ resp, get_system_info st now ex resp = (none, st, 1, 0)) := by
  have hgt : get_token st now ex = (false, st, 1) := by
    rcases hex with rfl | rfl <;> (unfold get_token; rw [if_neg hcache])
  refine ⟨hgt, ?_, ?_, ?_, ?_, ?_, ?_, ?_, ?_, ?_, ?_, ?_, ?_, ?_, ?_, ?_, ?_⟩ <;>
    intros <;>
    simp [get_envs, get_crons, add_env, update_env, delete_env, enable_env,
      disable_env, run_cron, stop_cron, enable_cron, disable_cron, pin_cron,
      unpin_cron, delete_cron, get_cron_log, get_system_info, boolOp, hgt]

/-- Witness for C7 with an exception during the exchange and a cold state. -/
theorem exchange_failure_short_circuit_c7_witness :
    get_token ⟨none, 0⟩ 5 .exc = (false, ⟨none, 0⟩, 1) ∧
    get_envs ⟨none, 0⟩ 5 .exc "X" (.ok (.arr [⟨1, "a", "b", "c", 0⟩]))
      = ([], ⟨none, 0⟩, 1, 0) ∧
    delete_env ⟨none, 0⟩ 5 .exc 3 (.ok ()) = (false, ⟨none, 0⟩, 1, 0) ∧
    get_cron_log ⟨none, 0⟩ 5 .exc 7 (.ok "log") = (none, ⟨none, 0⟩, 1, 0) := by
  have h := exchange_failure_short_circuit_c7 ⟨none, 0⟩ 5 .exc "m" (Or.inr rfl)
    (by decide)
  exact ⟨h.1, h.2.1 "X" _, h.2.2.2.2.2.1 3 _, h.2.2.2.2.2.2.2.2.2.2.2.2.2.2.2.1 7 _⟩

end QinglongAPI

namespace QinglongPlugin

lemma toLower_update : strToLower "update" = "update" := by decide

lemma toLower_delete : strToLower "delete" = "delete" := by decide

lemma toLower_enable : strToLower "enable" = "enable" := by decide

lemma toLower_disable : strToLower "disable" = "disable" := by decide

lemma toLower_cron : strToLower "cron" = "cron" := by decide

lemma toLower_log : strToLower "log" = "log" := by decide

/-- C9 (implicit): `get_envs`/`get_crons` return `[]` on an application
failure (`code != 200`) and on any exception, indistinguishably from a
genuinely empty listing; consequently the `delete`, `enable`, `disable`
and update-by-name handlers render the fixed variable-not-found reply —
and issue no mutating request — whenever the fetched list is empty, in
particular when the underlying listing request failed. -/
theorem listing_failure_not_found_c9 :
    (∀ (st : QinglongAPI.APIState) (now : Int) (ex : ExchangeResult) (sv m : String),
       (QinglongAPI.get_envs st now ex sv (.appFail m)).1 = [] ∧
       (QinglongAPI.get_envs st now ex sv .exc).1 = [] ∧
       (QinglongAPI.get_envs st now ex sv (.ok (.arr []))).1 = [] ∧
       (QinglongAPI.get_crons st now ex sv (.appFail m)).1 = [] ∧
       (QinglongAPI.get_crons st now ex sv .exc).1 = []) ∧
    (∀ (panel : Panel) (name v : String) (vs : List String),
       panel.envs name = [] → strStartsWith name "id:" = false →
       qlDispatch panel ["ql", "delete", name]
         = (["❌ 未找到环境变量: " ++ name], [.getEnvs name]) ∧
       qlDispatch panel ["ql", "enable", name]
         = (["❌ 未找到环境变量: " ++ name], [.getEnvs name]) ∧
       qlDispatch panel ["ql", "disable", name]
         = (["❌ 未找到环境变量: " ++ name], [.getEnvs name]) ∧
       qlDispatch panel ("ql" :: "update" :: name :: v :: vs)
         = (["❌ 未找到环境变量: " ++ name], [.getEnvs name])) := by
  constructor
  · intro st now ex sv m
    refine ⟨?_, ?_, ?_, ?_, ?_⟩ <;>
      (simp only [QinglongAPI.get_envs, QinglongAPI.get_crons, QinglongAPI.extractEnvs,
        QinglongAPI.extractCrons]; split <;> rfl)
  · intro panel name v vs henv hid
    refine ⟨?_, ?_, ?_, ?_⟩
    · simp only [qlDispatch, toLower_delete, henv]
      simp
    · simp only [qlDispatch, toLower_enable, henv]
      simp
    · simp only [qlDispatch, toLower_disable, henv]
      simp
    · simp only [qlDispatch, toLower_update, updateCommand, hid, henv]
      simp

/-- Witness for C9: a failed listing yields `[]`, and the `delete`
handler over a name whose fetch came back empty replies not-found with
no mutating call. -/
theorem listing_failure_not_found_c9_witness :
    (QinglongAPI.get_envs ⟨none, 0⟩ 5 (.ok "t") "X" (.appFail "boom")).1 = [] ∧
    qlDispatch panelA ["ql", "delete", "NONE"]
      = (["❌ 未找到环境变量: " ++ "NONE"], [.getEnvs "NONE"]) := by
  have h := listing_failure_not_found_c9
  exact ⟨(h.1 ⟨none, 0⟩ 5 (.ok "t") "X" "boom").1,
    (h.2 panelA "NONE" "v" [] (by decide) (by decide)).1⟩


/-- C3 counterexample: when the remote cron delete fails with the
application envelope message "not found", `cron delete 42` renders the
fixed failure string `❌ 删除任务失败: 42` — NOT `❌ 删除任务 42: not found`;
`delete_cron` consumes the envelope message (it is only logged), so it
is not surfaced verbatim in the reply. -/
theorem cron_delete_message_c3_counterexample :
    panelA.cronDeleteResp = .appFail "not found" ∧
    qlDispatch panelA ["ql", "cron", "delete", "42"]
      = (["❌ 删除任务失败: 42"], [.deleteCron [42]]) ∧
    ("❌ 删除任务失败: 42" : String) ≠ "❌ 删除任务 42: not found" := by
  decide

/-- C3 amended: for every application failure of the remote cron-delete
call, whatever the envelope message, `cron delete <id>` renders the fixed
failure reply `❌ 删除任务失败: <id>`; the message field never appears in
the user-facing reply (it goes to the logger only). -/
theorem cron_delete_message_c3_amended (panel : Panel) (t msg : String)
    (cron_id : Int) (ht : toIntOpt t = some cron_id)
    (hresp : panel.cronDeleteResp = .appFail msg) :
    qlDispatch panel ["ql", "cron", "delete", t]
      = (["❌ 删除任务失败: " ++ toString cron_id], [.deleteCron [cron_id]]) := by
  simp only [qlDispatch, toLower_cron, toLower_delete, ht, hresp]
  simp [respOk]

/-- Witness for the amended C3 at id 42, message "not found". -/
theorem cron_delete_message_c3_witness :
    qlDispatch panelA ["ql", "cron", "delete", "42"]
      = (["❌ 删除任务失败: " ++ toString (42 : Int)], [.deleteCron [42]]) :=
  cron_delete_message_c3_amended panelA "42" "not found" 42 (by decide) rfl

/-- C4: an update-by-name invocation whose name filter matches two or
more variables performs no mutating call (the trace is the single
listing fetch) and replies listing every match's id and remarks,
suggesting the `id:`-qualified form. -/
theorem update_ambiguous_c4 (panel : Panel) (name v : String) (vs : List String)
    (e0 e1 : EnvVar) (rest : List EnvVar)
    (hid : strStartsWith name "id:" = false)
    (henv : panel.envs name = e0 :: e1 :: rest) :
    qlDispatch panel ("ql" :: "update" :: name :: v :: vs)
      = (["⚠️ 找到 " ++ toString (e0 :: e1 :: rest).length ++ " 个名为 '" ++ name
            ++ "' 的变量:\n\n"
            ++ String.join ((e0 :: e1 :: rest).map
                 (fun e => "ID: " ++ toString e.id ++ " - " ++ e.remarks ++ "\n"))
            ++ ("\n💡 使用 /ql update id:" ++ toString e0.id ++ " <新值> 精确更新")],
         [.getEnvs name]) := by
  simp only [qlDispatch, toLower_update, updateCommand, hid, henv]
  simp

/-- Witness for C4 over the two variables named "DUP". -/
theorem update_ambiguous_c4_witness :
    qlDispatch panelA ["ql", "update", "DUP", "nv"]
      = (["⚠️ 找到 " ++ toString ([⟨1, "DUP", "v1", "r1", 0⟩,
              (⟨2, "DUP", "v2", "r2", 1⟩ : EnvVar)]).length ++ " 个名为 '" ++ "DUP"
            ++ "' 的变量:\n\n"
            ++ String.join (([⟨1, "DUP", "v1", "r1", 0⟩,
                 (⟨2, "DUP", "v2", "r2", 1⟩ : EnvVar)]).map
                 (fun e => "ID: " ++ toString e.id ++ " - " ++ e.remarks ++ "\n"))
            ++ ("\n💡 使用 /ql update id:" ++ toString (1 : Int) ++ " <新值> 精确更新")],
         [.getEnvs "DUP"]) :=
  update_ambiguous_c4 panelA "DUP" "nv" [] ⟨1, "DUP", "v1", "r1", 0⟩
    ⟨2, "DUP", "v2", "r2", 1⟩ [] (by decide) (by decide)

/-- C5 counterexample: the claim says every successful update carries
the target's EXISTING name in the PUT body.  With the (substring) search
for "A" returning the single variable named "AB", `update A x` sends the
filter token "A" as the name — not the existing name "AB". -/
theorem update_put_body_c5_counterexample :
    panelA.envs "A" = [⟨7, "AB", "v", "r", 0⟩] ∧
    qlDispatch panelA ["ql", "update", "A", "x"]
      = (["✅ 更新环境变量成功: A"], [.getEnvs "A", .updateEnv 7 "A" "x" "r"]) ∧
    ("A" : String) ≠ "AB" := by
  decide

/-- C5 amended: every successful update sends the target's existing
remarks unchanged and the re-joined trailing tokens as the value; the
`id:` path also sends the target's existing name, while the name path
sends the user's filter token as the name (which equals the existing
name only when the search match is named exactly by the filter). -/
theorem update_put_body_c5_amended (panel : Panel) (v : String) (vs : List String) :
    (∀ (nid : String) (env_id : Int) (target : EnvVar),
       strStartsWith nid "id:" = true →
       toIntOpt (nid.drop 3) = some env_id →
       (panel.envs "").find? (fun e => e.id = env_id) = some target →
       (qlDispatch panel ("ql" :: "update" :: nid :: v :: vs)).2
         = [.getEnvs "", .updateEnv env_id target.name (sjoin (v :: vs)) target.remarks]) ∧
    (∀ (name : String) (env : EnvVar),
       strStartsWith name "id:" = false →
       panel.envs name = [env] →
       (qlDispatch panel ("ql" :: "update" :: name :: v :: vs)).2
         = [.getEnvs name, .updateEnv env.id name (sjoin (v :: vs)) env.remarks]) := by
  constructor
  · intro nid env_id target hid hparse hfind
    cases hr : respOk panel.updateResp <;>
      (simp only [qlDispatch, toLower_update, updateCommand, hid, hparse, hfind, hr]; simp)
  · intro name env hid henv
    cases hr : respOk panel.updateResp <;>
      (simp only [qlDispatch, toLower_update, updateCommand, hid, henv, hr]; simp)

/-- Witness for the amended C5: the `id:7` path passes name "VAR" and
remarks "" through; the name path over the unique match for "A" passes
remarks "r" through with the filter token as the name. -/
theorem update_put_body_c5_witness :
    (qlDispatch panelA ["ql", "update", "id:7", "x"]).2
      = [.getEnvs "", .updateEnv 7 (EnvVar.mk 7 "VAR" "value" "" 0).name
          (sjoin ("x" :: [])) (EnvVar.mk 7 "VAR" "value" "" 0).remarks] ∧
    (qlDispatch panelA ["ql", "update", "A", "x"]).2
      = [.getEnvs "A", .updateEnv (EnvVar.mk 7 "AB" "v" "r" 0).id "A"
          (sjoin ("x" :: [])) (EnvVar.mk 7 "AB" "v" "r" 0).remarks] := by
  have h := update_put_body_c5_amended panelA "x" []
  exact ⟨h.1 "id:7" 7 ⟨7, "VAR", "value", "", 0⟩ (by decide) (by decide) (by decide),
    h.2 "A" ⟨7, "AB", "v", "r", 0⟩ (by decide) (by decide)⟩

/-- C6: over a name filter returning 2+ matches, `delete` issues the
delete for the FIRST match's id only, while `enable` and `disable` issue
one request carrying ALL matching ids. -/
theorem multi_match_policy_c6 (panel : Panel) (name : String)
    (e0 e1 : EnvVar) (rest : List EnvVar)
    (henv : panel.envs name = e0 :: e1 :: rest) :
    qlDispatch panel ["ql", "delete", name]
      = ((if respOk panel.deleteResp then ["✅ 删除环境变量成功: " ++ name]
          else ["❌ 删除环境变量失败: " ++ name]),
         [.getEnvs name, .deleteEnv e0.id]) ∧
    qlDispatch panel ["ql", "enable", name]
      = ((if respOk panel.enableResp then ["✅ 启用环境变量成功: " ++ name]
          else ["❌ 启用环境变量失败: " ++ name]),
         [.getEnvs name, .enableEnv ((e0 :: e1 :: rest).map (fun e => e.id))]) ∧
    qlDispatch panel ["ql", "disable", name]
      = ((if respOk panel.disableResp then ["✅ 禁用环境变量成功: " ++ name]
          else ["❌ 禁用环境变量失败: " ++ name]),
         [.getEnvs name, .disableEnv ((e0 :: e1 :: rest).map (fun e => e.id))]) := by
  refine ⟨?_, ?_, ?_⟩
  · cases hr : respOk panel.deleteResp <;>
      (simp only [qlDispatch, toLower_delete, henv, hr]; simp)
  · cases hr : respOk panel.enableResp <;>
      (simp only [qlDispatch, toLower_enable, henv, hr]; simp)
  · cases hr : respOk panel.disableResp <;>
      (simp only [qlDispatch, toLower_disable, henv, hr]; simp)

/-- Witness for C6 over the two variables named "DUP": delete targets id
1 only; enable/disable target ids [1, 2]. -/
theorem multi_match_policy_c6_witness :
    qlDispatch panelA ["ql", "delete", "DUP"]
      = ((if respOk panelA.deleteResp then ["✅ 删除环境变量成功: " ++ "DUP"]
          else ["❌ 删除环境变量失败: " ++ "DUP"]),
         [.getEnvs "DUP", .deleteEnv (EnvVar.mk 1 "DUP" "v1" "r1" 0).id]) ∧
    qlDispatch panelA ["ql", "enable", "DUP"]
      = ((if respOk panelA.enableResp then ["✅ 启用环境变量成功: " ++ "DUP"]
          else ["❌ 启用环境变量失败: " ++ "DUP"]),
         [.getEnvs "DUP", .enableEnv (([⟨1, "DUP", "v1", "r1", 0⟩,
             (⟨2, "DUP", "v2", "r2", 1⟩ : EnvVar)]).map (fun e => e.id))]) := by
  have h := multi_match_policy_c6 panelA "DUP" ⟨1, "DUP", "v1", "r1", 0⟩
    ⟨2, "DUP", "v2", "r2", 1⟩ [] (by decide)
  exact ⟨h.1, h.2.1⟩

/-- C8: the `log` command distinguishes fetch failure (`None` → failure
reply) from an empty log (no-log notice); a body over 1000 characters
renders as its last 1000 characters behind a leading ellipsis marker
(and that tail has exactly 1000 characters); a body of at most 1000
characters renders unmodified. -/
theorem log_rendering_c8 (panel : Panel) (t : String) (cron_id : Int) (s : String)
    (ht : toIntOpt t = some cron_id) :
    (panel.log cron_id = none →
       qlDispatch panel ["ql", "log", t]
         = (["❌ 获取任务日志失败: " ++ toString cron_id], [.getCronLog cron_id])) ∧
    (panel.log cron_id = some "" →
       qlDispatch panel ["ql", "log", t]
         = (["📝 任务 " ++ toString cron_id ++ " 暂无日志"], [.getCronLog cron_id])) ∧
    (panel.log cron_id = some s → s ≠ "" → s.length ≤ 1000 →
       qlDispatch panel ["ql", "log", t]
         = (["📝 任务 " ++ toString cron_id ++ " 日志:\n\n" ++ s],
            [.getCronLog cron_id])) ∧
    (panel.log cron_id = some s → 1000 < s.length →
       qlDispatch panel ["ql", "log", t]
         = (["📝 任务 " ++ toString cron_id ++ " 日志:\n\n"
              ++ ("...\n" ++ lastChars 1000 s)], [.getCronLog cron_id]) ∧
       (lastChars 1000 s).length = 1000) := by
  refine ⟨fun hlog => ?_, fun hlog => ?_, fun hlog hne hlen => ?_,
    fun hlog hlen => ⟨?_, ?_⟩⟩
  · simp only [qlDispatch, toLower_log, ht, hlog]
    simp
  · simp only [qlDispatch, toLower_log, ht, hlog]
    simp
  · have h2 : ¬(s.length > 1000) := by omega
    simp only [qlDispatch, toLower_log, ht, hlog]
    simp [hne, h2]
  · have hne : s ≠ "" := by
      intro h
      rw [h] at hlen
      simp at hlen
    have h2 : s.length > 1000 := hlen
    simp only [qlDispatch, toLower_log, ht, hlog]
    simp [hne, h2]
  · simp only [lastChars, String.length]
    simp [List.length_drop]
    omega

/-- Witness for C8 over the four log shapes of `panelA`. -/
theorem log_rendering_c8_witness :
    qlDispatch panelA ["ql", "log", "1"]
      = (["❌ 获取任务日志失败: " ++ toString (1 : Int)], [.getCronLog 1]) ∧
    qlDispatch panelA ["ql", "log", "2"]
      = (["📝 任务 " ++ toString (2 : Int) ++ " 暂无日志"], [.getCronLog 2]) ∧
    qlDispatch panelA ["ql", "log", "3"]
      = (["📝 任务 " ++ toString (3 : Int) ++ " 日志:\n\n" ++ shortLog],
         [.getCronLog 3]) ∧
    qlDispatch panelA ["ql", "log", "4"]
      = (["📝 任务 " ++ toString (4 : Int) ++ " 日志:\n\n"
           ++ ("...\n" ++ lastChars 1000 longLog)], [.getCronLog 4]) ∧
    (lastChars 1000 longLog).length = 1000 := by
  refine ⟨(log_rendering_c8 panelA "1" 1 "sx" (by decide)).1 rfl,
    (log_rendering_c8 panelA "2" 2 "sx" (by decide)).2.1 rfl,
    (log_rendering_c8 panelA "3" 3 shortLog (by decide)).2.2.1 rfl (by decide) (by decide),
    ((log_rendering_c8 panelA "4" 4 longLog (by decide)).2.2.2 rfl (by decide)).1,
    ((log_rendering_c8 panelA "4" 4 longLog (by decide)).2.2.2 rfl (by decide)).2⟩

end QinglongPlugin
